import Mathlib

/-!
Shallow embedding of the form-state hook in `src/utils/form.ts` and of the
layout component in `src/layout/PublicLayout.tsx`, together with proofs of
the specification claims about them.

JavaScript objects used as string-keyed maps are modelled as association
lists with JS update semantics; JS `undefined` results are modelled with
`Option`; the third-party `validate.js` evaluator is an abstract parameter
of type `Validator` (only its result shape matters to this code).
-/

namespace FormTs

/-- Values stored in `formState.values` by the change handler: a string for
ordinary controls, a boolean for checkbox-typed controls. -/
inductive JsVal where
  | str (s : String)
  | bool (b : Bool)
  deriving Repr, DecidableEq

/-- JS computed-property update `\x7b ...obj, [k]: v \x7d` restricted to the
key `k`: an existing key is overwritten in place, a new key is appended. -/
def insertObj (k : String) (v : α) : List (String × α) → List (String × α)
  | [] => [(k, v)]
  | (k', v') :: rest => if k' = k then (k, v) :: rest else (k', v') :: insertObj k v rest

/-- JS property read `obj[k]`: `some v` when the key is present, `none`
(JS `undefined`) otherwise. -/
def lookupObj (k : String) : List (String × α) → Option α
  | [] => none
  | (k', v) :: rest => if k' = k then some v else lookupObj k rest

/-- The `FormState` record of `form.ts`: field values, touched flags, and
per-field lists of validation error messages. The code keeps all three
objects defined at all times (`DEFAULT_FORM_STATE` supplies them and every
update spreads the previous state). -/
structure FormState where
  values : List (String × JsVal)
  touched : List (String × Bool)
  errors : List (String × List String)
  deriving Repr, DecidableEq

/-- `DEFAULT_FORM_STATE` from `form.ts`. -/
def DEFAULT_FORM_STATE : FormState := { values := [], touched := [], errors := [] }

/-- The parts of a DOM change event that `onFieldChange` reads:
`event.target.name` (absent when the control has no name attribute),
`event.target.type`, `event.target.checked` and `event.target.value`. -/
structure ChangeEvent where
  name : Option String
  type : String
  checked : Bool
  value : String
  deriving Repr, DecidableEq

/-- The object key used by the computed properties `[name]` in
`onFieldChange`: a missing `name` (JS `undefined`) is coerced by JS to the
string key `"undefined"`. -/
def ChangeEvent.fieldKey (ev : ChangeEvent) : String := ev.name.getD "undefined"

/-- The value `onFieldChange` reads from the event target: `checked` for
checkbox-typed controls, `value` for every other control type. -/
def ChangeEvent.fieldValue (ev : ChangeEvent) : JsVal :=
  if ev.type = "checkbox" then .bool ev.checked else .str ev.value

/-- The state update performed by `onFieldChange`: spread the previous
state, merge the new value into `values` and mark the field touched. -/
def onFieldChange (ev : ChangeEvent) (s : FormState) : FormState :=
  { s with
    values := insertObj ev.fieldKey ev.fieldValue s.values
    touched := insertObj ev.fieldKey true s.touched }

/-- The result of `validate(values, schema)` for the fixed schema of one
hook instance: `none` models the `undefined` that `validate.js` returns
when there are no violations, `some m` the mapping from field name to its
ordered list of violation messages. -/
abbrev Validator := List (String × JsVal) → Option (List (String × List String))

/-- The body of the `useEffect` revalidation: `errors: errors || \x7b\x7d`,
replacing the errors mapping wholesale and keeping the rest of the state. -/
def revalidate (v : Validator) (s : FormState) : FormState :=
  { s with errors := (v s.values).getD [] }

/-- `formHasError`: `Boolean(touched[f] && errors[f])`. The stored touched
flags are booleans, so `touched[f]` is truthy exactly when it is `true`;
`errors[f]` is an array, and a JS array is truthy whenever it is present,
including the empty array. -/
def formHasError (s : FormState) (fieldName : String) : Bool :=
  (lookupObj fieldName s.touched).getD false && (lookupObj fieldName s.errors).isSome

/-- `formGetError`: `formHasError(...) ? errors[f]?.[0] : null`; `none`
models both the `null` of the else-branch and the `undefined` produced by
indexing a missing or empty entry. -/
def formGetError (s : FormState) (fieldName : String) : Option String :=
  if formHasError s fieldName then (lookupObj fieldName s.errors).bind List.head? else none

/-- `isFormValid`: `Object.keys(formState?.errors ?? \x7b\x7d).length < 1`. -/
def isFormValid (s : FormState) : Bool := s.errors.length < 1

/-- `isFormTouched`: `Object.keys(formState?.touched ?? \x7b\x7d).length > 0`. -/
def isFormTouched (s : FormState) : Bool := 0 < s.touched.length

/-- A JavaScript argument value, as far as the parameter checks of
`useAppForm` can observe it: its `typeof` string and its truthiness, plus
the field list of a plain object (the only payload the hook then uses). -/
inductive JsArg where
  | undefined
  | null
  | boolean (b : Bool)
  | number (n : Int)
  | string (s : String)
  | object (fields : List (String × JsVal))
  | array
  | function
  deriving Repr, DecidableEq

/-- JS `typeof`. Note that `typeof null` and `typeof` of an array are both
the string `"object"`. -/
def jsTypeof : JsArg → String
  | .undefined => "undefined"
  | .null => "object"
  | .boolean _ => "boolean"
  | .number _ => "number"
  | .string _ => "string"
  | .object _ => "object"
  | .array => "object"
  | .function => "function"

/-- JS truthiness, as tested by `!validationSchema`. -/
def jsTruthy : JsArg → Bool
  | .undefined => false
  | .null => false
  | .boolean b => b
  | .number n => n != 0
  | .string s => s != ""
  | .object _ => true
  | .array => true
  | .function => true

/-- The field list an argument contributes to `formState.values`. The
claims evaluate this only at plain-object (or defaulted) arguments, the
shape required by the hook contract. -/
def jsFields : JsArg → List (String × JsVal)
  | .object f => f
  | _ => []

/-- The parameter default `initialValues = \x7b\x7d`, which applies exactly
when the argument is JS `undefined`. -/
def defaultedInitialValues (initialValuesArg : JsArg) : JsArg :=
  if initialValuesArg = JsArg.undefined then JsArg.object [] else initialValuesArg

/-- `useAppForm` parameter validation and initial state construction (the
`useState` initializer): the three guard clauses in source order, then
`\x7b ...DEFAULT_FORM_STATE, values: initialValues \x7d`. The mount-time
revalidation effect is modelled separately by `revalidate`. -/
def useAppForm (validationSchema : JsArg) (initialValuesArg : JsArg) :
    Except String FormState :=
  if !(jsTruthy validationSchema) then
    .error "useAppForm() - the option `validationSchema` is required"
  else if jsTypeof validationSchema ≠ "object" then
    .error "useAppForm() - the option `validationSchema` should be an object"
  else if jsTypeof (defaultedInitialValues initialValuesArg) ≠ "object" then
    .error "useAppForm() - the option `initialValues` should be an object"
  else
    .ok { DEFAULT_FORM_STATE with values := jsFields (defaultedInitialValues initialValuesArg) }

/-- True when the hook call throws. -/
def throwsE : Except String FormState → Bool
  | .error _ => true
  | .ok _ => false

/-- One operation on the form state during a single form lifetime: a
delivered change event, or one run of the revalidation effect. -/
inductive FormOp where
  | change (ev : ChangeEvent)
  | reval

/-- Apply one operation. -/
def applyOp (v : Validator) : FormOp → FormState → FormState
  | .change ev, s => onFieldChange ev s
  | .reval, s => revalidate v s

/-- Apply a sequence of operations left to right. -/
def applyOps (v : Validator) (ops : List FormOp) (s : FormState) : FormState :=
  ops.foldl (fun s op => applyOp v op s) s

/-- The state right after mount: the initial state followed by the first
run of the revalidation effect. -/
def mountForm (v : Validator) (init : List (String × JsVal)) : FormState :=
  revalidate v { DEFAULT_FORM_STATE with values := init }

/-- One committed change: the change-handler state update followed by the
revalidation effect that the `values` change triggers. -/
def commitChange (v : Validator) (s : FormState) (ev : ChangeEvent) : FormState :=
  revalidate v (onFieldChange ev s)

/-- The form state reached after mounting with initial values `init` and
delivering the change events `evs`, each followed by its revalidation. -/
def runForm (v : Validator) (init : List (String × JsVal)) (evs : List ChangeEvent) :
    FormState :=
  evs.foldl (commitChange v) (mountForm v init)

end FormTs

namespace LayoutTsx

/-- A navigation item: display title, navigation target path, icon id. -/
structure LinkToPage where
  title : String
  path : String
  icon : String
  deriving Repr, DecidableEq

/-- The three entries of the `SIDE_BAR_ITEMS` literal. -/
def SIDE_BAR_ITEMS_FIXED : List LinkToPage :=
  [{ title := "Log In", path := "/auth/login", icon := "login" },
   { title := "Sign Up", path := "/auth/signup", icon := "signup" },
   { title := "About", path := "/about", icon := "info" }]

/-- The debug-tools entry pushed at module evaluation time when
`process.env.REACT_APP_DEBUG === "true"`. -/
def DEBUG_ITEM : LinkToPage := { title := "[Debug Tools]", path := "/dev", icon := "settings" }

/-- `SIDE_BAR_ITEMS` after module evaluation, as a function of whether the
debug environment flag is enabled: the module-level `if` pushes the debug
entry onto this list. -/
def SIDE_BAR_ITEMS (debug : Bool) : List LinkToPage :=
  if debug then SIDE_BAR_ITEMS_FIXED ++ [DEBUG_ITEM] else SIDE_BAR_ITEMS_FIXED

/-- `BOTTOM_BAR_ITEMS` after module evaluation: the literal list. No code
in the module pushes to it; the debug flag is a parameter only so that
claims about the flag can be stated. -/
def BOTTOM_BAR_ITEMS (_debug : Bool) : List LinkToPage :=
  [{ title := "Log In", path := "/auth/login", icon := "login" },
   { title := "Sign Up", path := "/auth/signup", icon := "signup" },
   { title := "About", path := "/about", icon := "info" }]

/-- `onSideBarOpen`: `if (!sideBarVisible) setSideBarVisible(true)`.
Returns the resulting visibility and whether a state update was performed. -/
def onSideBarOpen (sideBarVisible : Bool) : Bool × Bool :=
  if !sideBarVisible then (true, true) else (sideBarVisible, false)

/-- `onSideBarClose`: `if (sideBarVisible) setSideBarVisible(false)`.
Returns the resulting visibility and whether a state update was performed. -/
def onSideBarClose (sideBarVisible : Bool) : Bool × Bool :=
  if sideBarVisible then (false, true) else (sideBarVisible, false)

/-- Number of state updates performed by a sequence of drawer actions. -/
def drawerUpdates (acts : List (Bool → Bool × Bool)) (s : Bool) : Nat :=
  match acts with
  | [] => 0
  | a :: rest => (if (a s).2 then 1 else 0) + drawerUpdates rest (a s).1

end LayoutTsx

namespace FormTs

/-- Reading back the key just written returns the written value. -/
theorem lookupObj_insertObj_self (k : String) (v : α) (l : List (String × α)) :
    lookupObj k (insertObj k v l) = some v := by
  induction l with
  | nil => simp [insertObj, lookupObj]
  | cons p rest ih =>
    obtain ⟨k', v'⟩ := p
    by_cases h : k' = k
    · simp [insertObj, lookupObj, h]
    · simp [insertObj, lookupObj, h, ih]

/-- Writing one key leaves reads of every other key unchanged. -/
theorem lookupObj_insertObj_ne {k' k : String} (h : k' ≠ k) (v : α) (l : List (String × α)) :
    lookupObj k' (insertObj k v l) = lookupObj k' l := by
  induction l with
  | nil => simp [insertObj, lookupObj, Ne.symm h]
  | cons p rest ih =>
    obtain ⟨k'', v''⟩ := p
    by_cases hk : k'' = k
    · subst hk
      simp [insertObj, lookupObj, Ne.symm h]
    · simp [insertObj, lookupObj, hk, ih]

/-- C1: a change event on a control named `n` stores the checked boolean at
`values[n]` for checkbox-typed controls and the string value otherwise, and
sets `touched[n]` to true; a missing name binds under the key `"undefined"`. -/
theorem c1_onFieldChange_stores (ev : ChangeEvent) (s : FormState) :
    (ev.type = "checkbox" →
      lookupObj ev.fieldKey (onFieldChange ev s).values = some (JsVal.bool ev.checked)) ∧
    (ev.type ≠ "checkbox" →
      lookupObj ev.fieldKey (onFieldChange ev s).values = some (JsVal.str ev.value)) ∧
    lookupObj ev.fieldKey (onFieldChange ev s).touched = some true ∧
    (ev.name = none →
      lookupObj "undefined" (onFieldChange ev s).values = some ev.fieldValue) := by
  refine ⟨?_, ?_, ?_, ?_⟩
  · intro h
    rw [show (onFieldChange ev s).values = insertObj ev.fieldKey ev.fieldValue s.values from rfl,
      lookupObj_insertObj_self]
    simp [ChangeEvent.fieldValue, h]
  · intro h
    rw [show (onFieldChange ev s).values = insertObj ev.fieldKey ev.fieldValue s.values from rfl,
      lookupObj_insertObj_self]
    simp [ChangeEvent.fieldValue, h]
  · exact lookupObj_insertObj_self ev.fieldKey true s.touched
  · intro h
    have hk : ev.fieldKey = "undefined" := by simp [ChangeEvent.fieldKey, h]
    rw [show (onFieldChange ev s).values = insertObj ev.fieldKey ev.fieldValue s.values from rfl,
      ← hk, lookupObj_insertObj_self]

/-- Witness for C1 at a concrete checkbox event named `subscribe`. -/
theorem c1_witness :
    lookupObj "subscribe"
        (onFieldChange ⟨some "subscribe", "checkbox", true, ""⟩ DEFAULT_FORM_STATE).values =
      some (JsVal.bool true) ∧
    lookupObj "subscribe"
        (onFieldChange ⟨some "subscribe", "checkbox", true, ""⟩ DEFAULT_FORM_STATE).touched =
      some true := by
  have h := c1_onFieldChange_stores ⟨some "subscribe", "checkbox", true, ""⟩ DEFAULT_FORM_STATE
  exact ⟨h.1 rfl, h.2.2.1⟩

/-- C5: a change event on a field leaves the values and touched entries of
every other field unchanged and leaves the errors mapping unchanged. -/
theorem c5_frame (ev : ChangeEvent) (s : FormState) :
    (∀ k, k ≠ ev.fieldKey →
      lookupObj k (onFieldChange ev s).values = lookupObj k s.values ∧
      lookupObj k (onFieldChange ev s).touched = lookupObj k s.touched) ∧
    (onFieldChange ev s).errors = s.errors := by
  refine ⟨fun k hk => ⟨?_, ?_⟩, rfl⟩
  · exact lookupObj_insertObj_ne hk ev.fieldValue s.values
  · exact lookupObj_insertObj_ne hk true s.touched

/-- Witness for C5 at a concrete text event named `email` and the distinct
field `other`. -/
theorem c5_witness :
    lookupObj "other"
        (onFieldChange ⟨some "email", "text", false, "x"⟩ DEFAULT_FORM_STATE).values =
      lookupObj "other" DEFAULT_FORM_STATE.values ∧
    (onFieldChange ⟨some "email", "text", false, "x"⟩ DEFAULT_FORM_STATE).errors =
      DEFAULT_FORM_STATE.errors := by
  have h := c5_frame ⟨some "email", "text", false, "x"⟩ DEFAULT_FORM_STATE
  exact ⟨(h.1 "other" (by decide)).1, h.2⟩

/-- Folding committed changes preserves the errors equation, because each
committed change ends in a revalidation. -/
theorem foldl_commitChange_errors (v : Validator) (evs : List ChangeEvent) (s : FormState)
    (h : s.errors = (v s.values).getD []) :
    (evs.foldl (commitChange v) s).errors =
      (v (evs.foldl (commitChange v) s).values).getD [] := by
  induction evs generalizing s with
  | nil => exact h
  | cons e rest ih => exact ih (commitChange v s e) rfl

/-- C2: after the revalidation step that follows every change to the
values (and after the one at mount), the stored errors mapping equals the
validator output on the full current values mapping, a missing result
standing for the empty mapping; the previous errors mapping is replaced
wholesale. -/
theorem c2_errors_is_validation (v : Validator) (init : List (String × JsVal))
    (evs : List ChangeEvent) :
    (runForm v init evs).errors = (v (runForm v init evs).values).getD [] :=
  foldl_commitChange_errors v evs (mountForm v init) rfl

/-- The has-error reading stated by the claim, following the spec words:
the field is touched and a non-empty error entry exists for it. -/
def specHasErrorNonEmpty (s : FormState) (fieldName : String) : Prop :=
  lookupObj fieldName s.touched = some true ∧
    ∃ msgs, lookupObj fieldName s.errors = some msgs ∧ msgs ≠ []

/-- The concrete state refuting C3: the field is touched and its error
entry is the empty array. -/
def emptyErrorState : FormState :=
  { values := [], touched := [("email", true)], errors := [("email", [])] }

/-- C3 counterexample: on a state whose `email` error entry is the empty
array, `formHasError` returns true (a JS array is truthy even when empty)
although no non-empty error entry exists, refuting the claimed
equivalence; `formGetError` then also fails to return a first message. -/
theorem c3_counterexample :
    formHasError emptyErrorState "email" = true ∧
    ¬ specHasErrorNonEmpty emptyErrorState "email" ∧
    formGetError emptyErrorState "email" = none := by
  refine ⟨by decide, ?_, by decide⟩
  rintro ⟨-, msgs, hm, hne⟩
  have h0 : lookupObj "email" emptyErrorState.errors = some [] := by decide
  exact hne (Option.some.inj (h0.symm.trans hm)).symm

/-- C3 (amended): `formHasError` is true iff the field is touched and an
error entry exists for it, regardless of that entry being empty (JS array
truthiness); `formGetError` returns the first message when the field has
an error and its entry is non-empty, and nothing when the field has no
error; in particular an untouched field reports no error through either
accessor, whatever its error entry. -/
theorem c3_error_accessors (s : FormState) (f : String) :
    (formHasError s f = true ↔
      lookupObj f s.touched = some true ∧ (lookupObj f s.errors).isSome = true) ∧
    (∀ m msgs, formHasError s f = true → lookupObj f s.errors = some (m :: msgs) →
      formGetError s f = some m) ∧
    (formHasError s f = false → formGetError s f = none) ∧
    (lookupObj f s.touched ≠ some true →
      formHasError s f = false ∧ formGetError s f = none) := by
  have htouch : ((lookupObj f s.touched).getD false = true) ↔
      lookupObj f s.touched = some true := by
    cases h : lookupObj f s.touched with
    | none => simp
    | some b => cases b <;> simp
  have hiff : formHasError s f = true ↔
      lookupObj f s.touched = some true ∧ (lookupObj f s.errors).isSome = true := by
    rw [formHasError, Bool.and_eq_true, htouch]
  have hnone : ∀ _ : formHasError s f = false, formGetError s f = none := by
    intro h
    simp [formGetError, h]
  refine ⟨hiff, ?_, hnone, ?_⟩
  · intro m msgs hHas hErr
    simp [formGetError, hHas, hErr]
  · intro hnt
    have hfalse : formHasError s f = false := by
      cases hb : formHasError s f
      · rfl
      · exact absurd (hiff.mp hb).1 hnt
    exact ⟨hfalse, hnone hfalse⟩

/-- Witness for C3 at a touched field with one violation message. -/
theorem c3_witness :
    formGetError ⟨[], [("email", true)], [("email", ["is required"])]⟩ "email" =
      some "is required" :=
  (c3_error_accessors ⟨[], [("email", true)], [("email", ["is required"])]⟩ "email").2.1
    "is required" [] (by decide) (by decide)

/-- A structured object in the sense the spec uses: a plain object value. -/
def isStructuredObject (a : JsArg) : Prop := ∃ f, a = JsArg.object f

/-- C4 counterexample: a null initial-values argument is provided and is
not a structured object, yet the hook does not throw, because JS `typeof
null` is the string `"object"`. -/
theorem c4_counterexample :
    ¬ isStructuredObject JsArg.null ∧ JsArg.null ≠ JsArg.undefined ∧
    throwsE (useAppForm (JsArg.object []) JsArg.null) = false := by
  refine ⟨?_, by decide, by decide⟩
  rintro ⟨f, h⟩
  exact JsArg.noConfusion h

/-- C4 (amended): the hook throws synchronously exactly when the schema
argument is JS-falsy or its `typeof` is not `"object"`, or when the
initial-values argument is provided (not `undefined`) and its `typeof` is
not `"object"`; since `typeof null` is `"object"`, a null initial-values
argument is accepted. Every pair passing these checks does not throw. -/
theorem c4_guard_conditions (schema initArg : JsArg) :
    throwsE (useAppForm schema initArg) = true ↔
      (jsTruthy schema = false ∨ jsTypeof schema ≠ "object" ∨
        (initArg ≠ JsArg.undefined ∧ jsTypeof initArg ≠ "object")) := by
  unfold useAppForm
  split_ifs with h1 h2 h3
  · have hf : jsTruthy schema = false := by simpa using h1
    simp [throwsE, hf]
  · simp [throwsE, h2]
  · have hne : initArg ≠ JsArg.undefined := by
      intro h
      apply h3
      rw [h]
      rfl
    have hd : defaultedInitialValues initArg = initArg := if_neg hne
    have h4 : jsTypeof initArg ≠ "object" := hd ▸ h3
    simp [throwsE, hne, h4]
  · have hf : ¬ jsTruthy schema = false := by simpa using h1
    have h3' : jsTypeof (defaultedInitialValues initArg) = "object" := not_ne_iff.mp h3
    simp only [throwsE]
    constructor
    · intro h
      exact Bool.noConfusion h
    · rintro (h | h | ⟨hne, hno⟩)
      · exact absurd h hf
      · exact absurd h h2
      · have hd : defaultedInitialValues initArg = initArg := if_neg hne
        rw [hd] at h3'
        exact absurd h3' hno

/-- Witness for C4 at the missing-schema input, which must throw. -/
theorem c4_witness : throwsE (useAppForm JsArg.undefined JsArg.undefined) = true :=
  (c4_guard_conditions JsArg.undefined JsArg.undefined).mpr (Or.inl rfl)

/-- C6: for every valid schema and initial-values pair the constructed
state carries the supplied initial values (the empty mapping when the
argument is omitted) and empty touched and errors mappings. -/
theorem c6_initial_state (schemaFields : List (String × JsVal)) (initArg : JsArg) :
    (initArg = JsArg.undefined →
      useAppForm (JsArg.object schemaFields) initArg =
        .ok { values := [], touched := [], errors := [] }) ∧
    (∀ f, initArg = JsArg.object f →
      useAppForm (JsArg.object schemaFields) initArg =
        .ok { values := f, touched := [], errors := [] }) := by
  constructor
  · intro h
    subst h
    rfl
  · intro f h
    subst h
    rfl

/-- Witness for C6 at a concrete one-field initial-values object. -/
theorem c6_witness :
    useAppForm (JsArg.object []) (JsArg.object [("name", JsVal.str "John Doe")]) =
      .ok { values := [("name", JsVal.str "John Doe")], touched := [], errors := [] } :=
  (c6_initial_state [] (JsArg.object [("name", JsVal.str "John Doe")])).2
    [("name", JsVal.str "John Doe")] rfl

/-- C10: revalidation always stores a defined errors mapping: a missing
validator result is replaced by the empty mapping so that the form is
valid, and `isFormValid` after revalidation is true exactly when the
stored (coalesced) validator output is empty. -/
theorem c10_errors_defined (v : Validator) (s : FormState) :
    (revalidate v s).errors = (v s.values).getD [] ∧
    (v s.values = none →
      (revalidate v s).errors = [] ∧ isFormValid (revalidate v s) = true) ∧
    (isFormValid (revalidate v s) = true ↔ (v s.values).getD [] = []) := by
  refine ⟨rfl, ?_, ?_⟩
  · intro h
    constructor
    · show (v s.values).getD [] = []
      rw [h]
      rfl
    · show isFormValid { s with errors := (v s.values).getD [] } = true
      rw [h]
      rfl
  · show isFormValid { s with errors := (v s.values).getD [] } = true ↔
      (v s.values).getD [] = []
    simp [isFormValid, Nat.lt_one_iff, List.length_eq_zero]

/-- Witness for C10 with a validator reporting no violations. -/
theorem c10_witness :
    (revalidate (fun _ => none) DEFAULT_FORM_STATE).errors = [] ∧
    isFormValid (revalidate (fun _ => none) DEFAULT_FORM_STATE) = true :=
  (c10_errors_defined (fun _ => none) DEFAULT_FORM_STATE).2.1 rfl

/-- A single operation never unsets a touched flag. -/
theorem touched_mono_op (v : Validator) (op : FormOp) (s : FormState) (k : String)
    (h : lookupObj k s.touched = some true) :
    lookupObj k (applyOp v op s).touched = some true := by
  cases op with
  | reval => exact h
  | change ev =>
    by_cases hk : k = ev.fieldKey
    · subst hk
      exact lookupObj_insertObj_self ev.fieldKey true s.touched
    · exact (lookupObj_insertObj_ne hk true s.touched).trans h

/-- C7: along any sequence of change events and revalidation steps, a
touched flag once set stays set. -/
theorem c7_touched_monotone (v : Validator) (ops : List FormOp) (s : FormState) (k : String)
    (h : lookupObj k s.touched = some true) :
    lookupObj k (applyOps v ops s).touched = some true := by
  induction ops generalizing s with
  | nil => exact h
  | cons op rest ih =>
    show lookupObj k (applyOps v rest (applyOp v op s)).touched = some true
    exact ih (applyOp v op s) (touched_mono_op v op s k h)

/-- Witness for C7: the `email` flag survives a change to another field
followed by a revalidation. -/
theorem c7_witness :
    lookupObj "email"
        (applyOps (fun _ => none)
          [FormOp.change { name := some "name", type := "text", checked := false, value := "y" },
           FormOp.reval]
          { values := [], touched := [("email", true)], errors := [] }).touched = some true :=
  c7_touched_monotone (fun _ => none) _ _ "email" (by decide)

end FormTs

namespace LayoutTsx

/-- C8: opening an already-open drawer and closing an already-closed one
perform no state update; from the closed state two successive opens cause
exactly one state transition, and dually for closes from the open state. -/
theorem c8_drawer_idempotent :
    onSideBarOpen true = (true, false) ∧
    onSideBarClose false = (false, false) ∧
    onSideBarOpen false = (true, true) ∧
    onSideBarClose true = (false, true) ∧
    drawerUpdates [onSideBarOpen, onSideBarOpen] false = 1 ∧
    drawerUpdates [onSideBarClose, onSideBarClose] true = 1 :=
  ⟨rfl, rfl, rfl, rfl, rfl, rfl⟩

/-- The claimed configuration behavior, following the spec words: each of
the two navigation lists receives the debug entry exactly when the debug
flag is enabled. -/
def specBothListsExtended (debug : Bool) : Prop :=
  (DEBUG_ITEM ∈ SIDE_BAR_ITEMS debug ↔ debug = true) ∧
  (DEBUG_ITEM ∈ BOTTOM_BAR_ITEMS debug ↔ debug = true)

/-- C9 counterexample: with the debug flag enabled, the side-bar list does
receive the debug entry but the bottom-bar list does not; only the
side-bar list is ever extended by the module-evaluation `if`. -/
theorem c9_counterexample :
    ¬ specBothListsExtended true ∧
    DEBUG_ITEM ∈ SIDE_BAR_ITEMS true ∧
    DEBUG_ITEM ∉ BOTTOM_BAR_ITEMS true := by
  refine ⟨?_, by decide, by decide⟩
  intro h
  exact absurd (h.2.mpr rfl) (by decide)

/-- C9 (amended): the side-bar list is extended with the debug-tools entry
exactly when the debug flag is enabled at module evaluation time, while
the bottom-bar list always contains exactly its three fixed entries; with
the flag disabled both lists are the three fixed entries. -/
theorem c9_nav_items (debug : Bool) :
    (DEBUG_ITEM ∈ SIDE_BAR_ITEMS debug ↔ debug = true) ∧
    SIDE_BAR_ITEMS false =
      [{ title := "Log In", path := "/auth/login", icon := "login" },
       { title := "Sign Up", path := "/auth/signup", icon := "signup" },
       { title := "About", path := "/about", icon := "info" }] ∧
    SIDE_BAR_ITEMS true =
      [{ title := "Log In", path := "/auth/login", icon := "login" },
       { title := "Sign Up", path := "/auth/signup", icon := "signup" },
       { title := "About", path := "/about", icon := "info" },
       { title := "[Debug Tools]", path := "/dev", icon := "settings" }] ∧
    BOTTOM_BAR_ITEMS debug =
      [{ title := "Log In", path := "/auth/login", icon := "login" },
       { title := "Sign Up", path := "/auth/signup", icon := "signup" },
       { title := "About", path := "/about", icon := "info" }] := by
  cases debug
  · exact ⟨by decide, by decide, by decide, by decide⟩
  · exact ⟨by decide, by decide, by decide, by decide⟩

/-- Witness for C9: with the flag enabled the side-bar list carries the
debug entry. -/
theorem c9_witness : DEBUG_ITEM ∈ SIDE_BAR_ITEMS true :=
  (c9_nav_items true).1.mpr rfl

end LayoutTsx
